import Mathlib

/-!
Verification development for the threadshare runtime elements of
gst-plugins-rs: the standalone async-mutex sink example
(`examples/standalone/sink/async_mutex/imp.rs`), the thread-sharing
app source (`src/appsrc.rs`) and the NDI sink combiner
(`src/net/ndi/src/ndisinkcombiner/imp.rs`).

The Rust code is shallowly embedded: each handler or method becomes a
pure Lean function from an explicit state to a new state together with
the outputs the code produces (pad pushes, element errors, return
values).  Clock times are modelled as natural numbers of nanoseconds;
panicking paths (`expect`, `unwrap`) are modelled with `Option`, where
`none` stands for a panic.
-/

/-- `gst::FlowError` variants used by the embedded code. -/
inductive FlowError
  | Flushing
  | Eos
  | NotNegotiated
  | Error
  | NotLinked
  deriving DecidableEq, Repr

/-- `gst::FlowSuccess` variants used by the embedded code. -/
inductive FlowSuccess
  | Ok
  deriving DecidableEq, Repr

/-! ## Standalone async-mutex sink (`examples/standalone/sink/async_mutex/imp.rs`) -/

/-- A buffer as seen by the sink: only its dts matters to `handle_buffer`.
`dts = none` models a buffer without a dts (the code panics on it). -/
structure Buffer where
  dts : Option Nat
  deriving DecidableEq, Repr

/-- Modelled from the spec: `Stats` lives in the standalone example's parent
module, which is not part of the sources; the spec treats buffering/latency
statistics as out-of-scope domain glue, so we record the samples
`add_buffer(latency, interval)` receives and whether `start()` ran. -/
structure Stats where
  started : Bool
  samples : List (Nat × Nat)
  deriving DecidableEq, Repr

/-- `Stats::add_buffer(latency, interval)`: record one sample. -/
def Stats.add_buffer (s : Stats) (latency interval : Nat) : Stats :=
  { s with samples := s.samples ++ [(latency, interval)] }

/-- `PadSinkHandlerInner`: the state guarded by the sink handler's
`futures::lock::Mutex`. -/
structure PadSinkHandlerInner where
  is_flushing : Bool
  is_main_elem : Bool
  last_dts : Option Nat
  segment_start : Option Nat
  stats : Option Stats
  deriving DecidableEq, Repr

/-- `PadSinkHandlerInner::handle_buffer`.  `cur` is the element's current
running time (`elem.current_running_time().unwrap()`).  Returns `none` on a
panicking path (missing dts, missing segment, dts before segment start);
otherwise the `Result` together with the state the method leaves behind. -/
def PadSinkHandlerInner.handle_buffer (s : PadSinkHandlerInner) (cur : Nat)
    (buffer : Buffer) : Option (Except FlowError Unit × PadSinkHandlerInner) :=
  if s.is_flushing then
    some (Except.error FlowError.Flushing, s)
  else
    match buffer.dts, s.segment_start with
    | none, _ => none
    | _, none => none
    | some bdts, some segStart =>
      if bdts < segStart then none
      else
        let dts := bdts - segStart
        let s :=
          match s.last_dts with
          | some lastDts =>
            let latency := cur - dts
            let interval := dts - lastDts
            match s.stats with
            | some st => { s with stats := some (st.add_buffer latency interval) }
            | none => s
          | none => s
        some (Except.ok (), { s with last_dts := some dts })

/-- `AsyncPadSinkHandler::sink_chain`: locks the inner state, runs
`handle_buffer`, maps any error to `FlowError::Flushing`. -/
def sink_chain (s : PadSinkHandlerInner) (cur : Nat) (buffer : Buffer) :
    Option (Except FlowError FlowSuccess × PadSinkHandlerInner) :=
  match s.handle_buffer cur buffer with
  | none => none
  | some (Except.error _, s) => some (Except.error FlowError.Flushing, s)
  | some (Except.ok (), s) => some (Except.ok FlowSuccess.Ok, s)

/-- Events arriving at the sink pad. -/
inductive SinkEvent
  | FlushStart
  | FlushStop
  | Eos
  | Segment (start : Option Nat)
  | SinkMessage
  | Other
  deriving DecidableEq, Repr

/-- Host-visible messages the serialized sink event handler posts. -/
inductive SinkMsg
  | errorShutdown
  | forwarded
  deriving DecidableEq, Repr

/-- `AsyncPadSinkHandler::sink_event_serialized`: runs under the handler
lock; returns the new inner state, the messages posted on the element and
the boolean result (always `true`). -/
def sink_event_serialized (s : PadSinkHandlerInner) (event : SinkEvent) :
    PadSinkHandlerInner × List SinkMsg × Bool :=
  match event with
  | SinkEvent.Eos => ({ s with is_flushing := true }, [SinkMsg.errorShutdown], true)
  | SinkEvent.FlushStop => ({ s with is_flushing := false }, [], true)
  | SinkEvent.Segment start => ({ s with segment_start := start }, [], true)
  | SinkEvent.SinkMessage => (s, [SinkMsg.forwarded], true)
  | _ => (s, [], true)

/-- `AsyncPadSinkHandler::sink_event`: the unserialized event path.  For
`FlushStart` it hands `block_on_or_add_sub_task` an async unit of work that
locks the inner state and sets `is_flushing`; we return that work as a state
transformer together with the boolean result. -/
def sink_event (event : SinkEvent) :
    Bool × Option (PadSinkHandlerInner → PadSinkHandlerInner) :=
  match event with
  | SinkEvent.FlushStart =>
    (true, some (fun s => { s with is_flushing := true }))
  | _ => (true, none)

/-- `AsyncPadSinkHandler::start`: clears flushing and timestamp state and
starts the stats. -/
def handler_start (s : PadSinkHandlerInner) : PadSinkHandlerInner :=
  { s with
    is_flushing := false
    last_dts := none
    stats := s.stats.map (fun st => { st with started := true }) }

/-- `AsyncPadSinkHandler::stop`: sets the flushing flag. -/
def handler_stop (s : PadSinkHandlerInner) : PadSinkHandlerInner :=
  { s with is_flushing := true }

/-! ## Theorems about the async-mutex sink -/

/-- C1: while the Flushing flag is set, the sink chain path returns
`FlowError::Flushing` and leaves the buffered state (`last_dts`,
`segment_start`, `stats`) unchanged.  Each callback body runs atomically
under the handler's exclusive lock, so any `sink_chain` call that observes
`is_flushing = true` — including one made while a prior `chain()` call is
still pending on the lock — takes the early-return branch of
`handle_buffer` and returns the state it was given. -/
theorem sink_chain_flushing_rejects (s : PadSinkHandlerInner) (cur : Nat)
    (buffer : Buffer) (h : s.is_flushing = true) :
    sink_chain s cur buffer = some (Except.error FlowError.Flushing, s) := by
  simp [sink_chain, PadSinkHandlerInner.handle_buffer, h]

/-- Witness for C1: a concrete flushing state rejects a concrete buffer
untouched. -/
theorem sink_chain_flushing_rejects_witness :
    sink_chain ⟨true, false, some 5, some 2, none⟩ 100 ⟨some 7⟩ =
      some (Except.error FlowError.Flushing, ⟨true, false, some 5, some 2, none⟩) :=
  sink_chain_flushing_rejects ⟨true, false, some 5, some 2, none⟩ 100 ⟨some 7⟩ rfl

/-- C6: `sink_event` returns `true` for every event, and for `FlushStart`
it hands the bridge (`block_on_or_add_sub_task`) a unit of work that sets
the Flushing flag and changes nothing else; for all other events no work is
scheduled.  The work is delivered outside the serialized handler path, so
it takes effect as soon as the lock is free, even while a long-running
`chain()` holds it. -/
theorem sink_event_flush_start_bridged :
    (∀ event : SinkEvent, (sink_event event).1 = true) ∧
    (∃ work, (sink_event SinkEvent.FlushStart).2 = some work ∧
      ∀ s : PadSinkHandlerInner,
        work s = { s with is_flushing := true }) ∧
    (∀ event : SinkEvent, event ≠ SinkEvent.FlushStart →
      (sink_event event).2 = none) := by
  refine ⟨fun event => ?_, ⟨fun s => { s with is_flushing := true }, rfl, fun s => rfl⟩,
    fun event h => ?_⟩
  · cases event <;> rfl
  · cases event <;> simp_all [sink_event]

/-- Witness for C6: at the concrete event `Eos` the result is `true` and no
work is scheduled; at `FlushStart` the scheduled work sets the flag on a
concrete state. -/
theorem sink_event_flush_start_bridged_witness :
    (sink_event SinkEvent.Eos).1 = true ∧ (sink_event SinkEvent.Eos).2 = none :=
  ⟨sink_event_flush_start_bridged.1 SinkEvent.Eos,
    sink_event_flush_start_bridged.2.2 SinkEvent.Eos (by decide)⟩

/-! ## Thread-sharing app source (`src/generic/threadshare/src/appsrc.rs`) -/

/-- Caps are opaque to the app source; identify them by a tag. -/
abbrev Caps := Nat

/-- `AppSrcPadHandlerState`: the handshake bookkeeping guarded by the
handler's `futures` mutex, plus the separately-locked `configured_caps`
from `AppSrcPadHandlerInner`. -/
structure AppSrcPadHandlerState where
  need_initial_events : Bool
  need_segment : Bool
  caps : Option Caps
  configured_caps : Option Caps
  deriving DecidableEq, Repr

/-- `Default for AppSrcPadHandlerState` (with `configured_caps` starting
`None` as in `AppSrcPadHandlerInner::default`). -/
def AppSrcPadHandlerState.default : AppSrcPadHandlerState :=
  { need_initial_events := true
    need_segment := true
    caps := none
    configured_caps := none }

/-- `AppSrcPadHandler::prepare(caps)`: stores the configured caps in the
handshake state. -/
def AppSrcPadHandler.prepare (caps : Option Caps) (s : AppSrcPadHandlerState) :
    AppSrcPadHandlerState :=
  { s with caps := caps }

/-- `AppSrcPadHandler::reset_state`: resets the `FutMutex`-guarded state
(`need_initial_events`, `need_segment`, `caps`) to its default.  The
separately-locked `configured_caps` is never cleared anywhere in the
source, so it is preserved. -/
def AppSrcPadHandler.reset_state (s : AppSrcPadHandlerState) :
    AppSrcPadHandlerState :=
  { need_initial_events := true
    need_segment := true
    caps := none
    configured_caps := s.configured_caps }

/-- `AppSrcPadHandler::set_need_segment`. -/
def AppSrcPadHandler.set_need_segment (s : AppSrcPadHandlerState) :
    AppSrcPadHandlerState :=
  { s with need_segment := true }

/-- Events the app source can receive through its channel. -/
inductive SrcEvent
  | Eos
  | Other
  deriving DecidableEq, Repr

/-- `StreamItem`: what `push_buffer` / `end_of_stream` put on the channel. -/
inductive StreamItem
  | buffer (b : Buffer)
  | event (e : SrcEvent)
  deriving DecidableEq, Repr

/-- What the source pad pushes downstream: handshake events, data events
and buffers. -/
inductive PadOut
  | streamStart
  | caps (c : Caps)
  | segment
  | eos
  | event
  | buffer (b : Buffer)
  deriving DecidableEq, Repr

/-- `AppSrcPadHandler::push_prelude`: on first need, push stream-start and,
when caps are configured, a caps event (recording it in
`configured_caps`); then, while `need_segment`, push a segment event.
Returns the new state and the pad outputs in push order. -/
def push_prelude (s : AppSrcPadHandlerState) :
    AppSrcPadHandlerState × List PadOut :=
  let step1 : AppSrcPadHandlerState × List PadOut :=
    if s.need_initial_events then
      match s.caps with
      | some c =>
        ({ s with need_initial_events := false, configured_caps := some c },
          [PadOut.streamStart, PadOut.caps c])
      | none =>
        ({ s with need_initial_events := false }, [PadOut.streamStart])
    else (s, [])
  let s1 := step1.1
  if s1.need_segment then
    ({ s1 with need_segment := false }, step1.2 ++ [PadOut.segment])
  else (s1, step1.2)

/-- `AppSrcPadHandler::push_item`: pushes the prelude, then forwards the
item.  `downRes` is the `Result` the downstream peer returns for
`pad.push(buffer)`.  Returns the new state, the pad outputs in push order
and the flow result. -/
def push_item (downRes : Except FlowError FlowSuccess)
    (s : AppSrcPadHandlerState) (item : StreamItem) :
    AppSrcPadHandlerState × List PadOut × Except FlowError FlowSuccess :=
  let pre := push_prelude s
  match item with
  | StreamItem.buffer b => (pre.1, pre.2 ++ [PadOut.buffer b], downRes)
  | StreamItem.event SrcEvent.Eos =>
    (pre.1, pre.2, Except.error FlowError.Eos)
  | StreamItem.event SrcEvent.Other =>
    (pre.1, pre.2 ++ [PadOut.event], Except.ok FlowSuccess.Ok)

/-- What `receiver.next().await` produced in one `iterate` call: an item,
or `None` because the channel was aborted. -/
inductive RecvResult
  | item (i : StreamItem)
  | aborted
  deriving DecidableEq, Repr

deriving instance DecidableEq for Except

/-- The outcome of one `AppSrcTask::iterate` call. -/
structure IterOut where
  state : AppSrcPadHandlerState
  padOut : List PadOut
  elementError : Bool
  res : Except FlowError Unit
  deriving DecidableEq, Repr

/-- `AppSrcTask::iterate`: receives an item (or observes the aborted
channel), runs `push_item`, then handles the result: `Eos` pushes an eos
event downstream, `Flushing` is logged only, any other error raises an
element error; the flow result is propagated. -/
def iterate (downRes : Except FlowError FlowSuccess)
    (s : AppSrcPadHandlerState) (recv : RecvResult) : IterOut :=
  match recv with
  | RecvResult.aborted =>
    { state := s, padOut := [], elementError := true
      res := Except.error FlowError.Flushing }
  | RecvResult.item item =>
    let r := push_item downRes s item
    match r.2.2 with
    | Except.ok _ =>
      { state := r.1, padOut := r.2.1, elementError := false
        res := Except.ok () }
    | Except.error FlowError.Eos =>
      { state := r.1, padOut := r.2.1 ++ [PadOut.eos], elementError := false
        res := Except.error FlowError.Eos }
    | Except.error FlowError.Flushing =>
      { state := r.1, padOut := r.2.1, elementError := false
        res := Except.error FlowError.Flushing }
    | Except.error err =>
      { state := r.1, padOut := r.2.1, elementError := true
        res := Except.error err }

/-- The task-side state `AppSrcTask` owns: the handshake state and the
channel's pending items. -/
structure AppSrcTaskState where
  handler : AppSrcPadHandlerState
  queue : List StreamItem
  deriving DecidableEq, Repr

/-- `AppSrcTask::flush`: purge the channel. -/
def AppSrcTask.flush (t : AppSrcTaskState) : AppSrcTaskState :=
  { t with queue := [] }

/-- `AppSrcTask::stop`: flush the channel and reset the handler state. -/
def AppSrcTask.stop (t : AppSrcTaskState) : AppSrcTaskState :=
  let t := AppSrcTask.flush t
  { t with handler := AppSrcPadHandler.reset_state t.handler }

/-- `AppSrcTask::flush_start`: flush the channel and re-arm the segment. -/
def AppSrcTask.flush_start (t : AppSrcTaskState) : AppSrcTaskState :=
  let t := AppSrcTask.flush t
  { t with handler := AppSrcPadHandler.set_need_segment t.handler }

/-- A pad output is a handshake event when it is a stream-start, caps or
segment event. -/
def PadOut.isHandshake : PadOut → Bool
  | PadOut.streamStart => true
  | PadOut.caps _ => true
  | PadOut.segment => true
  | _ => false

/-- The pad outputs an item itself produces, without any prelude. -/
def itemOut (downRes : Except FlowError FlowSuccess) (item : StreamItem) :
    List PadOut × Except FlowError FlowSuccess :=
  match item with
  | StreamItem.buffer b => ([PadOut.buffer b], downRes)
  | StreamItem.event SrcEvent.Eos => ([], Except.error FlowError.Eos)
  | StreamItem.event SrcEvent.Other => ([PadOut.event], Except.ok FlowSuccess.Ok)

/-- The prelude events emitted from a fresh handshake state with the given
configured caps: stream-start, then the caps event when configured, then
the segment event. -/
def initialPrelude (caps : Option Caps) : List PadOut :=
  match caps with
  | some c => [PadOut.streamStart, PadOut.caps c, PadOut.segment]
  | none => [PadOut.streamStart, PadOut.segment]

/-- C2: from a freshly prepared handshake state, the first `push_item`
emits stream-start (then caps when configured) and the segment event, in
that order, before the item's own output; the resulting state has both
`need_initial_events` and `need_segment` cleared; from any state with both
flags cleared, `push_prelude` is a no-op and `push_item` emits no handshake
event; `flush_start` re-arms `need_segment` and `stop`'s `reset_state`
re-arms both flags. -/
theorem push_prelude_initial_events_once
    (caps : Option Caps) (downRes : Except FlowError FlowSuccess)
    (item : StreamItem) (s : AppSrcPadHandlerState) (t : AppSrcTaskState)
    (hInit : s.need_initial_events = false) (hSeg : s.need_segment = false) :
    (push_item downRes
        (AppSrcPadHandler.prepare caps AppSrcPadHandlerState.default) item =
      ({ need_initial_events := false, need_segment := false, caps := caps
         configured_caps := caps },
        initialPrelude caps ++ (itemOut downRes item).1,
        (itemOut downRes item).2)) ∧
    push_prelude s = (s, []) ∧
    (∀ out ∈ (push_item downRes s item).2.1, out.isHandshake = false) ∧
    (AppSrcTask.flush_start t).handler.need_segment = true ∧
    (AppSrcTask.stop t).handler.need_initial_events = true ∧
    (AppSrcTask.stop t).handler.need_segment = true := by
  have hpre : push_prelude s = (s, []) := by
    simp [push_prelude, hInit, hSeg]
  refine ⟨?_, hpre, ?_, rfl, rfl, rfl⟩
  · cases caps <;> cases item <;> rename_i x
    case buffer => rfl
    case event => cases x <;> rfl
    case buffer => rfl
    case event => cases x <;> rfl
  · intro out hout
    cases item with
    | buffer b =>
      simp [push_item, hpre] at hout
      simp_all [PadOut.isHandshake]
    | event e =>
      cases e with
      | Eos => simp [push_item, hpre] at hout
      | Other =>
        simp [push_item, hpre] at hout
        simp_all [PadOut.isHandshake]

/-- Witness for C2 at concrete inputs: caps configured as tag `3`, a
buffer item, and a state with both flags cleared. -/
theorem push_prelude_initial_events_once_witness :
    push_item (Except.ok FlowSuccess.Ok)
        (AppSrcPadHandler.prepare (some 3) AppSrcPadHandlerState.default)
        (StreamItem.buffer ⟨some 0⟩) =
      ({ need_initial_events := false, need_segment := false, caps := some 3
         configured_caps := some 3 },
        [PadOut.streamStart, PadOut.caps 3, PadOut.segment,
          PadOut.buffer ⟨some 0⟩],
        Except.ok FlowSuccess.Ok) :=
  (push_prelude_initial_events_once (some 3) (Except.ok FlowSuccess.Ok)
      (StreamItem.buffer ⟨some 0⟩)
      { need_initial_events := false, need_segment := false, caps := none
        configured_caps := none }
      ⟨AppSrcPadHandlerState.default, []⟩ rfl rfl).1

/-- C4: in `iterate`, an `Eos` flow result pushes an eos event downstream
as the final pad output and raises no element error; `Flushing` raises no
element error and pushes no eos; every other `FlowError` variant raises an
element error; an `Ok` result raises no element error.  The flow result of
`push_item` is propagated unchanged. -/
theorem iterate_error_taxonomy (downRes : Except FlowError FlowSuccess)
    (s : AppSrcPadHandlerState) (item : StreamItem) :
    ((push_item downRes s item).2.2 = Except.error FlowError.Eos →
      iterate downRes s (RecvResult.item item) =
        { state := (push_item downRes s item).1
          padOut := (push_item downRes s item).2.1 ++ [PadOut.eos]
          elementError := false
          res := Except.error FlowError.Eos }) ∧
    ((push_item downRes s item).2.2 = Except.error FlowError.Flushing →
      iterate downRes s (RecvResult.item item) =
        { state := (push_item downRes s item).1
          padOut := (push_item downRes s item).2.1
          elementError := false
          res := Except.error FlowError.Flushing }) ∧
    (∀ err : FlowError, (push_item downRes s item).2.2 = Except.error err →
      err ≠ FlowError.Eos → err ≠ FlowError.Flushing →
      iterate downRes s (RecvResult.item item) =
        { state := (push_item downRes s item).1
          padOut := (push_item downRes s item).2.1
          elementError := true
          res := Except.error err }) ∧
    (∀ ok : FlowSuccess, (push_item downRes s item).2.2 = Except.ok ok →
      iterate downRes s (RecvResult.item item) =
        { state := (push_item downRes s item).1
          padOut := (push_item downRes s item).2.1
          elementError := false
          res := Except.ok () }) := by
  refine ⟨fun h => ?_, fun h => ?_, fun err h hEos hFlush => ?_, fun ok h => ?_⟩
  · simp [iterate, h]
  · simp [iterate, h]
  · cases err
    · exact absurd rfl hFlush
    · exact absurd rfl hEos
    · simp [iterate, h]
    · simp [iterate, h]
    · simp [iterate, h]
  · cases ok
    simp [iterate, h]

/-- Witness for C4 at a concrete input: the downstream returns
`NotNegotiated` for a buffer, so `iterate` raises an element error and
propagates the error. -/
theorem iterate_error_taxonomy_witness :
    iterate (Except.error FlowError.NotNegotiated)
        AppSrcPadHandlerState.default
        (RecvResult.item (StreamItem.buffer ⟨some 0⟩)) =
      { state := { need_initial_events := false, need_segment := false
                   caps := none, configured_caps := none }
        padOut := [PadOut.streamStart, PadOut.segment, PadOut.buffer ⟨some 0⟩]
        elementError := true
        res := Except.error FlowError.NotNegotiated } :=
  (iterate_error_taxonomy (Except.error FlowError.NotNegotiated)
      AppSrcPadHandlerState.default (StreamItem.buffer ⟨some 0⟩)).2.2.1
    FlowError.NotNegotiated rfl (by decide) (by decide)

/-- C7: `AppSrcTask::stop` purges every item still pending in the channel
and re-arms the handshake flags, so after stop the queue is empty and the
next `push_item` emits stream-start and segment before the media unit. -/
theorem stop_discards_and_rearms (t : AppSrcTaskState)
    (downRes : Except FlowError FlowSuccess) (b : Buffer) :
    (AppSrcTask.stop t).queue = [] ∧
    (AppSrcTask.stop t).handler.need_initial_events = true ∧
    (AppSrcTask.stop t).handler.need_segment = true ∧
    (push_item downRes (AppSrcTask.stop t).handler
        (StreamItem.buffer b)).2.1 =
      [PadOut.streamStart, PadOut.segment, PadOut.buffer b] := by
  exact ⟨rfl, rfl, rfl, rfl⟩

/-- C3 counterexample: stop() followed by start() is NOT externally
indistinguishable from a freshly prepared task when caps are configured.
`AppSrcTask::stop` runs `reset_state`, which resets the mutex-guarded
handshake state to its default — including `caps := None` — and `start()`
does not re-run `prepare`, so the caps event is not re-emitted, whereas a
freshly prepared task emits it. -/
theorem stop_start_loses_caps :
    push_item (Except.ok FlowSuccess.Ok)
        (AppSrcTask.stop
          ⟨AppSrcPadHandler.prepare (some 3) AppSrcPadHandlerState.default,
            []⟩).handler
        (StreamItem.buffer ⟨some 0⟩) ≠
      push_item (Except.ok FlowSuccess.Ok)
        (AppSrcPadHandler.prepare (some 3) AppSrcPadHandlerState.default)
        (StreamItem.buffer ⟨some 0⟩) := by
  decide

/-- C3 amended: after `stop()` followed by `start()`, the channel is empty
and the mutex-guarded handshake state is back to its default —
`need_initial_events` and `need_segment` re-armed, the stored caps setting
cleared — so the next `push_item` re-emits stream-start and the segment
event, but no caps event, before the media unit, even when caps were
configured.  Only `configured_caps`, which answers caps queries, survives:
the restarted task is not indistinguishable from a freshly prepared one
whenever caps were configured, since a fresh `prepare` re-emits the caps
event. -/
theorem stop_then_start_rearms_without_caps (t : AppSrcTaskState)
    (downRes : Except FlowError FlowSuccess) (item : StreamItem) :
    (AppSrcTask.stop t).queue = [] ∧
    (AppSrcTask.stop t).handler =
      { need_initial_events := true, need_segment := true, caps := none
        configured_caps := t.handler.configured_caps } ∧
    push_item downRes (AppSrcTask.stop t).handler item =
      ({ need_initial_events := false, need_segment := false
         caps := none, configured_caps := t.handler.configured_caps },
        initialPrelude none ++ (itemOut downRes item).1,
        (itemOut downRes item).2) := by
  refine ⟨rfl, rfl, ?_⟩
  cases item with
  | buffer b => rfl
  | event e => cases e <;> rfl

/-- The `Task` states of the runtime's state machine. -/
inductive TaskState
  | Stopped
  | Preparing
  | Prepared
  | Started
  | Paused
  | Stopping
  deriving DecidableEq, Repr

/-- The element-level state of `AppSrc` as `push_buffer` sees it: the task
state read under `lock_state()`, the channel's pending items and capacity,
the `do-timestamp` setting and whether a sender exists. -/
structure AppSrcState where
  taskState : TaskState
  queue : List StreamItem
  capacity : Nat
  do_timestamp : Bool
  sender : Bool
  deriving DecidableEq, Repr

/-- `AppSrc::push_buffer`.  `hasClock` tells whether `element.get_clock()`
returns a clock, `now` and `base` its current and base time.  Returns
`none` when the code would panic (`sender.unwrap()` with no sender),
otherwise the boolean result and the new state.  `try_send` succeeds only
while the channel holds fewer items than its capacity. -/
def AppSrc.push_buffer (m : AppSrcState) (hasClock : Bool) (now base : Nat)
    (b : Buffer) : Option (Bool × AppSrcState) :=
  if m.taskState ≠ TaskState.Started ∧ m.taskState ≠ TaskState.Paused then
    some (false, m)
  else if m.do_timestamp ∧ ¬hasClock then
    some (false, m)
  else if m.sender = false then none
  else if m.queue.length < m.capacity then
    some (true, { m with queue := m.queue ++
      [StreamItem.buffer (if m.do_timestamp then ⟨some (now - base)⟩ else b)] })
  else
    some (false, m)

/-- The `AppSrc` settings consumed by `prepare`. -/
structure AppSrcSettings where
  max_buffers : Nat
  do_timestamp : Bool
  caps : Option Caps
  deriving DecidableEq, Repr

/-- `AppSrc::prepare` (success path): creates the channel with capacity
`max_buffers`, installs the sender, configures the handler's caps and
leaves the task `Prepared`. -/
def AppSrc.prepare (settings : AppSrcSettings) :
    AppSrcState × AppSrcPadHandlerState :=
  ({ taskState := TaskState.Prepared
     queue := []
     capacity := settings.max_buffers
     do_timestamp := settings.do_timestamp
     sender := true },
    AppSrcPadHandler.prepare settings.caps AppSrcPadHandlerState.default)

/-- The `max-buffers` property's (minimum, maximum, default) from the
`PROPERTIES` table: `1`, `u32::MAX`, `DEFAULT_MAX_BUFFERS = 10`. -/
def maxBuffersPSpec : Nat × Nat × Nat := (1, 4294967295, 10)

/-- C8: `push_buffer` returns `false` and enqueues nothing whenever the
task state read under `lock_state()` is neither `Started` nor `Paused`;
conversely a buffer is only enqueued when the state is `Started` or
`Paused`. -/
theorem push_buffer_state_gate (m : AppSrcState) (hasClock : Bool)
    (now base : Nat) (b : Buffer) :
    (m.taskState ≠ TaskState.Started → m.taskState ≠ TaskState.Paused →
      AppSrc.push_buffer m hasClock now base b = some (false, m)) ∧
    (∀ r m', AppSrc.push_buffer m hasClock now base b = some (r, m') →
      m'.queue ≠ m.queue →
      m.taskState = TaskState.Started ∨ m.taskState = TaskState.Paused) := by
  constructor
  · intro h1 h2
    simp [AppSrc.push_buffer, h1, h2]
  · intro r m' h hq
    by_contra hs
    push_neg at hs
    rw [AppSrc.push_buffer, if_pos ⟨hs.1, hs.2⟩] at h
    cases h
    exact hq rfl

/-- Witness for C8: a `Stopped` task rejects a buffer without enqueueing
it, and a successful enqueue implies the task was started or paused. -/
theorem push_buffer_state_gate_witness :
    AppSrc.push_buffer ⟨TaskState.Stopped, [], 10, false, true⟩ false 0 0
        ⟨some 0⟩ =
      some (false, ⟨TaskState.Stopped, [], 10, false, true⟩) ∧
    ((⟨TaskState.Started, [], 10, false, true⟩ : AppSrcState).taskState =
        TaskState.Started ∨
      (⟨TaskState.Started, [], 10, false, true⟩ : AppSrcState).taskState =
        TaskState.Paused) :=
  ⟨(push_buffer_state_gate ⟨TaskState.Stopped, [], 10, false, true⟩ false 0 0
      ⟨some 0⟩).1 (by decide) (by decide),
    (push_buffer_state_gate ⟨TaskState.Started, [], 10, false, true⟩ false 0 0
      ⟨some 0⟩).2 true ⟨TaskState.Started, [StreamItem.buffer ⟨some 0⟩], 10,
        false, true⟩ rfl (by decide)⟩

/-- C9: the channel `prepare` creates has capacity exactly the configured
`max-buffers` (whose property minimum is 1, default 10), and when the
channel is full a further `push_buffer` fails its `try_send` and returns
`false` without enqueueing — `try_send` never blocks the caller. -/
theorem prepare_channel_capacity (settings : AppSrcSettings)
    (m : AppSrcState) (hasClock : Bool) (now base : Nat) (b : Buffer) :
    (AppSrc.prepare settings).1.capacity = settings.max_buffers ∧
    maxBuffersPSpec.1 = 1 ∧ maxBuffersPSpec.2.2 = 10 ∧
    (m.capacity ≤ m.queue.length →
      ∀ r m', AppSrc.push_buffer m hasClock now base b = some (r, m') →
        r = false ∧ m' = m) := by
  refine ⟨rfl, rfl, rfl, fun hfull r m' h => ?_⟩
  rw [AppSrc.push_buffer] at h
  split at h
  · cases h; exact ⟨rfl, rfl⟩
  · split at h
    · cases h; exact ⟨rfl, rfl⟩
    · split at h
      · cases h
      · rw [if_neg (by omega)] at h
        cases h; exact ⟨rfl, rfl⟩

/-- Witness for C9: prepare with `max-buffers = 2` yields capacity 2, and a
full queue of 2 items rejects a third buffer leaving the state unchanged. -/
theorem prepare_channel_capacity_witness :
    (AppSrc.prepare ⟨2, false, none⟩).1.capacity = 2 ∧
    (false = false ∧
      (⟨TaskState.Started, [StreamItem.buffer ⟨some 0⟩,
          StreamItem.buffer ⟨some 1⟩], 2, false, true⟩ : AppSrcState) =
        ⟨TaskState.Started, [StreamItem.buffer ⟨some 0⟩,
          StreamItem.buffer ⟨some 1⟩], 2, false, true⟩) :=
  ⟨(prepare_channel_capacity ⟨2, false, none⟩
      ⟨TaskState.Started, [StreamItem.buffer ⟨some 0⟩,
        StreamItem.buffer ⟨some 1⟩], 2, false, true⟩ false 0 0 ⟨some 2⟩).1,
    (prepare_channel_capacity ⟨2, false, none⟩
      ⟨TaskState.Started, [StreamItem.buffer ⟨some 0⟩,
        StreamItem.buffer ⟨some 1⟩], 2, false, true⟩ false 0 0 ⟨some 2⟩).2.2.2
      (by decide) false
      ⟨TaskState.Started, [StreamItem.buffer ⟨some 0⟩,
        StreamItem.buffer ⟨some 1⟩], 2, false, true⟩ (by decide)⟩

/-! ## NDI sink combiner (`src/net/ndi/src/ndisinkcombiner/imp.rs`) -/

/-- The pad templates of the combiner. -/
inductive PadTemplKind
  | src
  | video
  | audio
  deriving DecidableEq, Repr

/-- Pads are identified by a tag. -/
abbrev Pad := Nat

/-- The combiner state relevant to pad management: the stored requested
audio pad. -/
structure NdiSinkCombinerPads where
  audio_pad : Option Pad
  deriving DecidableEq, Repr

/-- `NdiSinkCombiner::create_new_pad`: refuses (returning `None`, state
unchanged) when an audio pad was already requested or the template is not
the audio sink template; otherwise builds the pad, stores it and returns
it. -/
def create_new_pad (m : NdiSinkCombinerPads) (templ : PadTemplKind)
    (newPad : Pad) : Option Pad × NdiSinkCombinerPads :=
  if m.audio_pad.isSome then (none, m)
  else if templ ≠ PadTemplKind.audio then (none, m)
  else (some newPad, { audio_pad := some newPad })

/-- `NdiSinkCombiner::release_pad`: clears the stored audio pad when the
released pad is that pad; otherwise does nothing. -/
def release_pad (m : NdiSinkCombinerPads) (pad : Pad) : NdiSinkCombinerPads :=
  if m.audio_pad = some pad then { audio_pad := none } else m

/-- C10: at most one audio pad ever exists: `create_new_pad` returns `None`
and leaves the state unchanged whenever an audio pad is already stored or
the template is not the audio one; a pad is created only when no audio pad
is stored and the template is the audio one, and it is then stored; after
`release_pad` on the stored pad the storage is cleared, so a single new
audio pad can be requested again. -/
theorem create_new_pad_at_most_one_audio (m : NdiSinkCombinerPads)
    (templ : PadTemplKind) (p q : Pad) :
    (m.audio_pad.isSome → create_new_pad m templ p = (none, m)) ∧
    (templ ≠ PadTemplKind.audio → create_new_pad m templ p = (none, m)) ∧
    ((create_new_pad m templ p).1.isSome →
      m.audio_pad = none ∧ templ = PadTemplKind.audio) ∧
    release_pad ⟨some q⟩ q = ⟨none⟩ ∧
    create_new_pad (release_pad ⟨some q⟩ q) PadTemplKind.audio p =
      (some p, ⟨some p⟩) := by
  refine ⟨fun h => ?_, fun h => ?_, fun h => ?_, ?_, ?_⟩
  · simp [create_new_pad, h]
  · rcases hm : m.audio_pad with _ | a
    · simp [create_new_pad, hm, h]
    · simp [create_new_pad, hm]
  · rcases hm : m.audio_pad with _ | a
    · by_cases ht : templ = PadTemplKind.audio
      · exact ⟨rfl, ht⟩
      · simp [create_new_pad, hm, ht] at h
    · simp [create_new_pad, hm] at h
  · simp [release_pad]
  · simp [release_pad, create_new_pad]

/-- Witness for C10: with pad `1` stored, requesting pad `2` on the audio
template fails; a wrong template also fails; releasing pad `1` then lets
pad `2` be requested. -/
theorem create_new_pad_at_most_one_audio_witness :
    create_new_pad ⟨some 1⟩ PadTemplKind.audio 2 = (none, ⟨some 1⟩) ∧
    create_new_pad ⟨none⟩ PadTemplKind.video 2 = (none, ⟨none⟩) ∧
    create_new_pad (release_pad ⟨some 1⟩ 1) PadTemplKind.audio 2 =
      (some 2, ⟨some 2⟩) :=
  ⟨(create_new_pad_at_most_one_audio ⟨some 1⟩ PadTemplKind.audio 2 1).1 rfl,
    (create_new_pad_at_most_one_audio ⟨none⟩ PadTemplKind.video 2 1).2.1
      (by decide),
    (create_new_pad_at_most_one_audio (⟨none⟩ : NdiSinkCombinerPads)
      PadTemplKind.audio 2 1).2.2.2.2⟩
